import Mathlib

set_option linter.unusedSectionVars false

/-!
Shallow embedding of the BusinessSolutionManager server
(`src/server/storage.ts`, `src/server/routes.ts`, shared schema).

The in-memory store (`MemStorage`) keeps one JavaScript `Map` per entity
type together with an auto-incrementing id counter.  A JavaScript `Map`
is modelled as an insertion-ordered association list: `set` replaces an
existing entry in place or appends at the end, `get` finds the entry,
`delete` removes it and reports whether it was present, and iteration
(`Array.from(map.values())`) is the list of values in order.

Numbers that are TypeScript `number`s are modelled as `Nat` (ids) or
`Int` (dates, i.e. epoch timestamps, and money amounts; every amount
in the specification is a whole number, on which JavaScript float
arithmetic is exact).  Nullable columns are `Option` fields.  The
insert types (`InsertClient`, ...) are the row types minus the serial
`id`; update payloads (`Partial<Insert...>`) are records of `Option`
fields, including an optional `id`, because `createInsertSchema` does
not omit the serial column and the spread `{...record, ...payload}`
lets a payload `id` overwrite the stored one at runtime.
-/

namespace BSM

/-! ### Enumerations (pgEnum definitions in the shared schema) -/

inductive ClientType where
  | Private
  | Company
deriving DecidableEq

inductive ServiceFrequency where
  | Weekly
  | Monthly
  | Quarterly
  | Annually
  | OnDemand
deriving DecidableEq

inductive ProjectStatus where
  | Pending
  | InProgress
  | Completed
deriving DecidableEq

inductive ContactMethod where
  | Phone
  | Email
  | InPerson
deriving DecidableEq

inductive ResponseType where
  | Positive
  | Negative
  | NoResponse
deriving DecidableEq

inductive FollowUpStatus where
  | Pending
  | Done
  | Canceled
deriving DecidableEq

inductive EmployeeRole where
  | Manager
  | Sales
  | CustomerService
  | Technician
deriving DecidableEq

/-! ### Row types (`$inferSelect`) and insert types (`z.infer` of the insert schemas) -/

structure User where
  id : Nat
  username : String
  password : String
  employeeId : Option Nat
deriving DecidableEq

structure InsertUser where
  username : String
  password : String
  employeeId : Option Nat
deriving DecidableEq

structure Client where
  id : Nat
  name : String
  phone : String
  address : Option String
  clientType : ClientType
deriving DecidableEq

structure InsertClient where
  name : String
  phone : String
  address : Option String
  clientType : ClientType
deriving DecidableEq

structure Service where
  id : Nat
  name : String
  description : Option String
  frequency : ServiceFrequency
  basePrice : Int
deriving DecidableEq

structure InsertService where
  name : String
  description : Option String
  frequency : ServiceFrequency
  basePrice : Int
deriving DecidableEq

structure Project where
  id : Nat
  clientId : Nat
  name : String
  dateRequested : Int
  dateOfExecution : Option Int
  description : Option String
  invoiceFile : Option String
  cost : Int
  price : Int
  duration : Option String
  status : ProjectStatus
deriving DecidableEq

structure InsertProject where
  clientId : Nat
  name : String
  dateRequested : Int
  dateOfExecution : Option Int
  description : Option String
  invoiceFile : Option String
  cost : Int
  price : Int
  duration : Option String
  status : ProjectStatus
deriving DecidableEq

structure ProjectDocument where
  id : Nat
  projectId : Nat
  filename : String
  filepath : String
  uploadDate : Int
deriving DecidableEq

structure InsertProjectDocument where
  projectId : Nat
  filename : String
  filepath : String
  uploadDate : Int
deriving DecidableEq

/-- `client_services` rows carry no serial id; the insert type has the
same shape as the row type. -/
structure ClientService where
  clientId : Nat
  serviceId : Nat
deriving DecidableEq

abbrev InsertClientService := ClientService

structure NewClientContact where
  id : Nat
  contactName : String
  phoneEmail : String
  contactedDate : Int
  contactMethod : ContactMethod
  responseType : ResponseType
  notes : Option String
  convertedToClient : Bool
  convertedClientId : Option Nat
deriving DecidableEq

structure InsertNewClientContact where
  contactName : String
  phoneEmail : String
  contactedDate : Int
  contactMethod : ContactMethod
  responseType : ResponseType
  notes : Option String
  convertedToClient : Bool
  convertedClientId : Option Nat
deriving DecidableEq

structure FollowUp where
  id : Nat
  taskDescription : String
  clientId : Option Nat
  relatedProjectId : Option Nat
  assignedEmployeeId : Nat
  dueDate : Int
  status : FollowUpStatus
  notes : Option String
  createdById : Nat
deriving DecidableEq

structure InsertFollowUp where
  taskDescription : String
  clientId : Option Nat
  relatedProjectId : Option Nat
  assignedEmployeeId : Nat
  dueDate : Int
  status : FollowUpStatus
  notes : Option String
  createdById : Nat
deriving DecidableEq

structure Employee where
  id : Nat
  name : String
  email : String
  role : EmployeeRole
  activeStatus : Bool
deriving DecidableEq

structure InsertEmployee where
  name : String
  email : String
  role : EmployeeRole
  activeStatus : Bool
deriving DecidableEq

/-- `employee_clients` rows carry no serial id. -/
structure EmployeeClient where
  employeeId : Nat
  clientId : Nat
deriving DecidableEq

abbrev InsertEmployeeClient := EmployeeClient

/-! ### The spread `{...insert, id}` used by every create method -/

def User.ofInsert (id : Nat) (u : InsertUser) : User :=
  { id := id, username := u.username, password := u.password, employeeId := u.employeeId }

def Client.ofInsert (id : Nat) (c : InsertClient) : Client :=
  { id := id, name := c.name, phone := c.phone, address := c.address,
    clientType := c.clientType }

def Service.ofInsert (id : Nat) (s : InsertService) : Service :=
  { id := id, name := s.name, description := s.description,
    frequency := s.frequency, basePrice := s.basePrice }

def Project.ofInsert (id : Nat) (p : InsertProject) : Project :=
  { id := id, clientId := p.clientId, name := p.name,
    dateRequested := p.dateRequested, dateOfExecution := p.dateOfExecution,
    description := p.description, invoiceFile := p.invoiceFile,
    cost := p.cost, price := p.price, duration := p.duration, status := p.status }

def ProjectDocument.ofInsert (id : Nat) (d : InsertProjectDocument) : ProjectDocument :=
  { id := id, projectId := d.projectId, filename := d.filename,
    filepath := d.filepath, uploadDate := d.uploadDate }

def NewClientContact.ofInsert (id : Nat) (c : InsertNewClientContact) : NewClientContact :=
  { id := id, contactName := c.contactName, phoneEmail := c.phoneEmail,
    contactedDate := c.contactedDate, contactMethod := c.contactMethod,
    responseType := c.responseType, notes := c.notes,
    convertedToClient := c.convertedToClient, convertedClientId := c.convertedClientId }

def FollowUp.ofInsert (id : Nat) (f : InsertFollowUp) : FollowUp :=
  { id := id, taskDescription := f.taskDescription, clientId := f.clientId,
    relatedProjectId := f.relatedProjectId, assignedEmployeeId := f.assignedEmployeeId,
    dueDate := f.dueDate, status := f.status, notes := f.notes,
    createdById := f.createdById }

def Employee.ofInsert (id : Nat) (e : InsertEmployee) : Employee :=
  { id := id, name := e.name, email := e.email, role := e.role,
    activeStatus := e.activeStatus }

/-! ### Update payloads (`Partial<Insert...>` as it behaves at runtime)

Every field is optional; a present field overwrites the stored one via
the object spread `{...record, ...payload}`.  Because the insert schema
is `createInsertSchema(table)` without `.omit({id})`, a payload may even
carry an `id`. -/

structure ClientPatch where
  id : Option Nat := none
  name : Option String := none
  phone : Option String := none
  address : Option (Option String) := none
  clientType : Option ClientType := none
deriving DecidableEq

def mergeClient (c : Client) (p : ClientPatch) : Client :=
  { id := p.id.getD c.id, name := p.name.getD c.name, phone := p.phone.getD c.phone,
    address := p.address.getD c.address, clientType := p.clientType.getD c.clientType }

structure ServicePatch where
  id : Option Nat := none
  name : Option String := none
  description : Option (Option String) := none
  frequency : Option ServiceFrequency := none
  basePrice : Option Int := none
deriving DecidableEq

def mergeService (s : Service) (p : ServicePatch) : Service :=
  { id := p.id.getD s.id, name := p.name.getD s.name,
    description := p.description.getD s.description,
    frequency := p.frequency.getD s.frequency,
    basePrice := p.basePrice.getD s.basePrice }

structure ProjectPatch where
  id : Option Nat := none
  clientId : Option Nat := none
  name : Option String := none
  dateRequested : Option Int := none
  dateOfExecution : Option (Option Int) := none
  description : Option (Option String) := none
  invoiceFile : Option (Option String) := none
  cost : Option Int := none
  price : Option Int := none
  duration : Option (Option String) := none
  status : Option ProjectStatus := none
deriving DecidableEq

def mergeProject (r : Project) (p : ProjectPatch) : Project :=
  { id := p.id.getD r.id, clientId := p.clientId.getD r.clientId,
    name := p.name.getD r.name, dateRequested := p.dateRequested.getD r.dateRequested,
    dateOfExecution := p.dateOfExecution.getD r.dateOfExecution,
    description := p.description.getD r.description,
    invoiceFile := p.invoiceFile.getD r.invoiceFile,
    cost := p.cost.getD r.cost, price := p.price.getD r.price,
    duration := p.duration.getD r.duration, status := p.status.getD r.status }

structure NewClientContactPatch where
  id : Option Nat := none
  contactName : Option String := none
  phoneEmail : Option String := none
  contactedDate : Option Int := none
  contactMethod : Option ContactMethod := none
  responseType : Option ResponseType := none
  notes : Option (Option String) := none
  convertedToClient : Option Bool := none
  convertedClientId : Option (Option Nat) := none
deriving DecidableEq

def mergeNewClientContact (c : NewClientContact) (p : NewClientContactPatch) :
    NewClientContact :=
  { id := p.id.getD c.id, contactName := p.contactName.getD c.contactName,
    phoneEmail := p.phoneEmail.getD c.phoneEmail,
    contactedDate := p.contactedDate.getD c.contactedDate,
    contactMethod := p.contactMethod.getD c.contactMethod,
    responseType := p.responseType.getD c.responseType,
    notes := p.notes.getD c.notes,
    convertedToClient := p.convertedToClient.getD c.convertedToClient,
    convertedClientId := p.convertedClientId.getD c.convertedClientId }

structure FollowUpPatch where
  id : Option Nat := none
  taskDescription : Option String := none
  clientId : Option (Option Nat) := none
  relatedProjectId : Option (Option Nat) := none
  assignedEmployeeId : Option Nat := none
  dueDate : Option Int := none
  status : Option FollowUpStatus := none
  notes : Option (Option String) := none
  createdById : Option Nat := none
deriving DecidableEq

def mergeFollowUp (f : FollowUp) (p : FollowUpPatch) : FollowUp :=
  { id := p.id.getD f.id, taskDescription := p.taskDescription.getD f.taskDescription,
    clientId := p.clientId.getD f.clientId,
    relatedProjectId := p.relatedProjectId.getD f.relatedProjectId,
    assignedEmployeeId := p.assignedEmployeeId.getD f.assignedEmployeeId,
    dueDate := p.dueDate.getD f.dueDate, status := p.status.getD f.status,
    notes := p.notes.getD f.notes, createdById := p.createdById.getD f.createdById }

structure EmployeePatch where
  id : Option Nat := none
  name : Option String := none
  email : Option String := none
  role : Option EmployeeRole := none
  activeStatus : Option Bool := none
deriving DecidableEq

def mergeEmployee (e : Employee) (p : EmployeePatch) : Employee :=
  { id := p.id.getD e.id, name := p.name.getD e.name, email := p.email.getD e.email,
    role := p.role.getD e.role, activeStatus := p.activeStatus.getD e.activeStatus }

/-! ### JavaScript `Map` semantics over an insertion-ordered association list -/

/-- `map.get(k)`: the value stored under `k`, if any. -/
def jget {κ α : Type} [DecidableEq κ] : List (κ × α) → κ → Option α
  | [], _ => none
  | (k2, v) :: t, k => if k2 = k then some v else jget t k

/-- `map.set(k, v)`: replace the entry for `k` in place, or append a new
one at the end; insertion order of other entries is preserved. -/
def jset {κ α : Type} [DecidableEq κ] : List (κ × α) → κ → α → List (κ × α)
  | [], k, v => [(k, v)]
  | (k2, v2) :: t, k, v => if k2 = k then (k, v) :: t else (k2, v2) :: jset t k v

/-- `map.delete(k)`: remove the entry for `k` (a JS `Map` holds at most
one entry per key). -/
def jdel {κ α : Type} [DecidableEq κ] : List (κ × α) → κ → List (κ × α)
  | [], _ => []
  | (k2, v2) :: t, k => if k2 = k then t else (k2, v2) :: jdel t k

/-! ### One entity table: a `Map<number, T>` plus its id counter -/

structure Tbl (α : Type) where
  map : List (Nat × α)
  nextId : Nat
deriving DecidableEq

/-- `const id = this.xId++; const r = {...input, id}; store.set(id, r); return r;` -/
def Tbl.create {α β : Type} (toRec : Nat → β → α) (t : Tbl α) (b : β) : α × Tbl α :=
  let id := t.nextId
  let r := toRec id b
  (r, { map := jset t.map id r, nextId := id + 1 })

/-- `store.get(id)` -/
def Tbl.get {α : Type} (t : Tbl α) (id : Nat) : Option α :=
  jget t.map id

/-- `const r = store.get(id); if (!r) return undefined;
const r2 = {...r, ...payload}; store.set(id, r2); return r2;` -/
def Tbl.update {α π : Type} (merge : α → π → α) (t : Tbl α) (id : Nat) (p : π) :
    Option α × Tbl α :=
  match jget t.map id with
  | none => (none, t)
  | some r =>
      let r2 := merge r p
      (some r2, { map := jset t.map id r2, nextId := t.nextId })

/-- `return store.delete(id)` -/
def Tbl.del {α : Type} (t : Tbl α) (id : Nat) : Bool × Tbl α :=
  ((jget t.map id).isSome, { map := jdel t.map id, nextId := t.nextId })

/-- `Array.from(store.values())` -/
def Tbl.values {α : Type} (t : Tbl α) : List α :=
  t.map.map Prod.snd

/-! ### The `MemStorage` state -/

structure Store where
  userStore : Tbl User
  clientStore : Tbl Client
  serviceStore : Tbl Service
  projectStore : Tbl Project
  projectDocumentStore : Tbl ProjectDocument
  clientServiceStore : List (String × ClientService)
  newClientContactStore : Tbl NewClientContact
  followUpStore : Tbl FollowUp
  employeeStore : Tbl Employee
  employeeClientStore : List (String × EmployeeClient)
deriving DecidableEq

namespace Store

/-! User methods -/

def getUser (s : Store) (id : Nat) : Option User :=
  s.userStore.get id

def getUserByUsername (s : Store) (username : String) : Option User :=
  s.userStore.values.find? (fun user => user.username == username)

def createUser (s : Store) (u : InsertUser) : User × Store :=
  let r := s.userStore.create User.ofInsert u
  (r.1, { s with userStore := r.2 })

/-! Client methods -/

def getClients (s : Store) : List Client :=
  s.clientStore.values

def getClient (s : Store) (id : Nat) : Option Client :=
  s.clientStore.get id

def createClient (s : Store) (c : InsertClient) : Client × Store :=
  let r := s.clientStore.create Client.ofInsert c
  (r.1, { s with clientStore := r.2 })

def updateClient (s : Store) (id : Nat) (p : ClientPatch) : Option Client × Store :=
  let r := s.clientStore.update mergeClient id p
  (r.1, { s with clientStore := r.2 })

def deleteClient (s : Store) (id : Nat) : Bool × Store :=
  let r := s.clientStore.del id
  (r.1, { s with clientStore := r.2 })

/-! Service methods -/

def getServices (s : Store) : List Service :=
  s.serviceStore.values

def getService (s : Store) (id : Nat) : Option Service :=
  s.serviceStore.get id

def createService (s : Store) (sv : InsertService) : Service × Store :=
  let r := s.serviceStore.create Service.ofInsert sv
  (r.1, { s with serviceStore := r.2 })

def updateService (s : Store) (id : Nat) (p : ServicePatch) : Option Service × Store :=
  let r := s.serviceStore.update mergeService id p
  (r.1, { s with serviceStore := r.2 })

def deleteService (s : Store) (id : Nat) : Bool × Store :=
  let r := s.serviceStore.del id
  (r.1, { s with serviceStore := r.2 })

/-! Project methods -/

def getProjects (s : Store) : List Project :=
  s.projectStore.values

def getProject (s : Store) (id : Nat) : Option Project :=
  s.projectStore.get id

def createProject (s : Store) (p : InsertProject) : Project × Store :=
  let r := s.projectStore.create Project.ofInsert p
  (r.1, { s with projectStore := r.2 })

def updateProject (s : Store) (id : Nat) (p : ProjectPatch) : Option Project × Store :=
  let r := s.projectStore.update mergeProject id p
  (r.1, { s with projectStore := r.2 })

def deleteProject (s : Store) (id : Nat) : Bool × Store :=
  let r := s.projectStore.del id
  (r.1, { s with projectStore := r.2 })

def getProjectsByClient (s : Store) (clientId : Nat) : List Project :=
  s.projectStore.values.filter (fun project => project.clientId == clientId)

def getProjectsByStatus (s : Store) (status : ProjectStatus) : List Project :=
  s.projectStore.values.filter (fun project => project.status == status)

/-! ProjectDocument methods -/

def getProjectDocuments (s : Store) (projectId : Nat) : List ProjectDocument :=
  s.projectDocumentStore.values.filter (fun doc => doc.projectId == projectId)

def createProjectDocument (s : Store) (d : InsertProjectDocument) :
    ProjectDocument × Store :=
  let r := s.projectDocumentStore.create ProjectDocument.ofInsert d
  (r.1, { s with projectDocumentStore := r.2 })

def deleteProjectDocument (s : Store) (id : Nat) : Bool × Store :=
  let r := s.projectDocumentStore.del id
  (r.1, { s with projectDocumentStore := r.2 })

/-! ClientService methods (keyed by the string `` `${clientId}-${serviceId}` ``) -/

def getClientServices (s : Store) (clientId : Nat) : List ClientService :=
  (s.clientServiceStore.map Prod.snd).filter (fun cs => cs.clientId == clientId)

def csKey (clientId serviceId : Nat) : String :=
  toString clientId ++ "-" ++ toString serviceId

def addServiceToClient (s : Store) (cs : InsertClientService) : ClientService × Store :=
  let key := csKey cs.clientId cs.serviceId
  (cs, { s with clientServiceStore := jset s.clientServiceStore key cs })

def removeServiceFromClient (s : Store) (clientId serviceId : Nat) : Bool × Store :=
  let key := csKey clientId serviceId
  ((jget s.clientServiceStore key).isSome,
    { s with clientServiceStore := jdel s.clientServiceStore key })

/-! NewClientContact methods -/

def getNewClientContacts (s : Store) : List NewClientContact :=
  s.newClientContactStore.values

def getNewClientContact (s : Store) (id : Nat) : Option NewClientContact :=
  s.newClientContactStore.get id

def createNewClientContact (s : Store) (c : InsertNewClientContact) :
    NewClientContact × Store :=
  let r := s.newClientContactStore.create NewClientContact.ofInsert c
  (r.1, { s with newClientContactStore := r.2 })

def updateNewClientContact (s : Store) (id : Nat) (p : NewClientContactPatch) :
    Option NewClientContact × Store :=
  let r := s.newClientContactStore.update mergeNewClientContact id p
  (r.1, { s with newClientContactStore := r.2 })

def deleteNewClientContact (s : Store) (id : Nat) : Bool × Store :=
  let r := s.newClientContactStore.del id
  (r.1, { s with newClientContactStore := r.2 })

/-- `convertContactToClient(contactId, clientId)`: look up the contact;
if absent return `false`; otherwise overwrite it with
`{...contact, convertedToClient: true, convertedClientId: clientId}`
and return `true`.  The client store is never consulted. -/
def convertContactToClient (s : Store) (contactId clientId : Nat) : Bool × Store :=
  match jget s.newClientContactStore.map contactId with
  | none => (false, s)
  | some contact =>
      let updatedContact : NewClientContact :=
        { contact with convertedToClient := true, convertedClientId := some clientId }
      (true, { s with newClientContactStore :=
        { map := jset s.newClientContactStore.map contactId updatedContact,
          nextId := s.newClientContactStore.nextId } })

/-! FollowUp methods -/

def getFollowUps (s : Store) : List FollowUp :=
  s.followUpStore.values

def getFollowUp (s : Store) (id : Nat) : Option FollowUp :=
  s.followUpStore.get id

def createFollowUp (s : Store) (f : InsertFollowUp) : FollowUp × Store :=
  let r := s.followUpStore.create FollowUp.ofInsert f
  (r.1, { s with followUpStore := r.2 })

def updateFollowUp (s : Store) (id : Nat) (p : FollowUpPatch) :
    Option FollowUp × Store :=
  let r := s.followUpStore.update mergeFollowUp id p
  (r.1, { s with followUpStore := r.2 })

def deleteFollowUp (s : Store) (id : Nat) : Bool × Store :=
  let r := s.followUpStore.del id
  (r.1, { s with followUpStore := r.2 })

def getFollowUpsByStatus (s : Store) (status : FollowUpStatus) : List FollowUp :=
  s.followUpStore.values.filter (fun f => f.status == status)

/-! Employee methods -/

def getEmployees (s : Store) : List Employee :=
  s.employeeStore.values

def getEmployee (s : Store) (id : Nat) : Option Employee :=
  s.employeeStore.get id

def createEmployee (s : Store) (e : InsertEmployee) : Employee × Store :=
  let r := s.employeeStore.create Employee.ofInsert e
  (r.1, { s with employeeStore := r.2 })

def updateEmployee (s : Store) (id : Nat) (p : EmployeePatch) :
    Option Employee × Store :=
  let r := s.employeeStore.update mergeEmployee id p
  (r.1, { s with employeeStore := r.2 })

def deleteEmployee (s : Store) (id : Nat) : Bool × Store :=
  let r := s.employeeStore.del id
  (r.1, { s with employeeStore := r.2 })

def getEmployeesByRole (s : Store) (role : EmployeeRole) : List Employee :=
  s.employeeStore.values.filter (fun employee => employee.role == role)

/-! EmployeeClient methods (keyed by `` `${employeeId}-${clientId}` ``) -/

def ecKey (employeeId clientId : Nat) : String :=
  toString employeeId ++ "-" ++ toString clientId

def assignClientToEmployee (s : Store) (ec : InsertEmployeeClient) :
    EmployeeClient × Store :=
  let key := ecKey ec.employeeId ec.clientId
  (ec, { s with employeeClientStore := jset s.employeeClientStore key ec })

def unassignClientFromEmployee (s : Store) (employeeId clientId : Nat) : Bool × Store :=
  let key := ecKey employeeId clientId
  ((jget s.employeeClientStore key).isSome,
    { s with employeeClientStore := jdel s.employeeClientStore key })

/-! Constructor state and seed data -/

/-- The `MemStorage` constructor before `seedInitialData`: empty maps,
every counter at 1. -/
def emptyStore : Store :=
  { userStore := { map := [], nextId := 1 }
    clientStore := { map := [], nextId := 1 }
    serviceStore := { map := [], nextId := 1 }
    projectStore := { map := [], nextId := 1 }
    projectDocumentStore := { map := [], nextId := 1 }
    clientServiceStore := []
    newClientContactStore := { map := [], nextId := 1 }
    followUpStore := { map := [], nextId := 1 }
    employeeStore := { map := [], nextId := 1 }
    employeeClientStore := [] }

/-- The employee created by `seedInitialData`. -/
def seedEmployee : InsertEmployee :=
  { name := "John Doe", email := "john@example.com", role := EmployeeRole.Manager,
    activeStatus := true }

/-- The user created by `seedInitialData`. -/
def seedUser : InsertUser :=
  { username := "admin", password := "password", employeeId := some 1 }

/-- `seedInitialData`: create the default manager employee, then the
admin user linked to employee id 1. -/
def seedInitialData (s : Store) : Store :=
  let s1 := (s.createEmployee seedEmployee).2
  (s1.createUser seedUser).2

/-- The state of `MemStorage` right after its constructor ran. -/
def freshStore : Store :=
  emptyStore.seedInitialData

end Store

/-! ### Routes (`src/server/routes.ts`) -/

/-- Stable sort by a boolean comparator, modelling `Array.prototype.sort`
with a two-argument comparator (`le a b` plays the role of
`compare(a, b) <= 0`). -/
def insertBy {α : Type} (le : α → α → Bool) (x : α) : List α → List α
  | [] => [x]
  | y :: ys => if le x y then x :: y :: ys else y :: insertBy le x ys

def sortBy {α : Type} (le : α → α → Bool) : List α → List α
  | [] => []
  | x :: xs => insertBy le x (sortBy le xs)

/-- The JSON body of `GET /api/analytics/dashboard`. -/
structure DashboardData where
  totalClients : Nat
  activeProjects : Nat
  pendingFollowUps : Nat
  overdueFollowUps : Nat
  totalRevenue : Int
  recentProjects : List Project
  pendingFollowUpsList : List FollowUp
deriving DecidableEq

/-- `GET /api/analytics/dashboard`: recompute every counter from the
three main collections; `now` is the timestamp of `new Date()` at call
time. -/
def dashboard (s : Store) (now : Int) : DashboardData :=
  let clients := s.getClients
  let projects := s.getProjects
  let followUps := s.getFollowUps
  let totalClients := clients.length
  let activeProjects :=
    (projects.filter (fun p => p.status == ProjectStatus.InProgress)).length
  let pendingFollowUps :=
    (followUps.filter (fun f => f.status == FollowUpStatus.Pending)).length
  let overdueFollowUps :=
    (followUps.filter (fun f =>
      if f.status != FollowUpStatus.Pending then false
      else decide (f.dueDate < now))).length
  let totalRevenue := projects.foldl (fun sum project => sum + project.price) 0
  let recentProjects :=
    (sortBy (fun a b => decide (b.dateRequested ≤ a.dateRequested)) projects).take 5
  let pendingFollowUpsList :=
    (sortBy (fun a b => decide (a.dueDate ≤ b.dueDate))
      (followUps.filter (fun f => f.status == FollowUpStatus.Pending))).take 5
  { totalClients := totalClients, activeProjects := activeProjects,
    pendingFollowUps := pendingFollowUps, overdueFollowUps := overdueFollowUps,
    totalRevenue := totalRevenue, recentProjects := recentProjects,
    pendingFollowUpsList := pendingFollowUpsList }

/-- `DELETE /api/documents/:id`: the handler looks the document up among
`storage.getProjectDocuments(0)` only, answers 404 when that search
fails, and otherwise unlinks the file (no store effect) and deletes the
record, answering 204.  Returns the HTTP status and the store after the
request. -/
def deleteDocumentRoute (s : Store) (id : Nat) : Nat × Store :=
  let documents := s.getProjectDocuments 0
  match documents.find? (fun doc => doc.id == id) with
  | none => (404, s)
  | some _ => (204, (s.deleteProjectDocument id).2)

/-! ### Association-list lemmas -/

section MapLemmas

variable {κ α : Type} [DecidableEq κ]

theorem jget_jset_self (m : List (κ × α)) (k : κ) (v : α) :
    jget (jset m k v) k = some v := by
  induction m with
  | nil => simp [jget, jset]
  | cons kv t ih =>
      obtain ⟨k2, v2⟩ := kv
      by_cases h : k2 = k
      · simp [jset, h, jget]
      · simp [jset, h, jget, ih]

theorem jset_jset (m : List (κ × α)) (k : κ) (v w : α) :
    jset (jset m k v) k w = jset m k w := by
  induction m with
  | nil => simp [jset]
  | cons kv t ih =>
      obtain ⟨k2, v2⟩ := kv
      by_cases h : k2 = k
      · simp [jset, h]
      · simp [jset, h, ih]

theorem mem_jset {m : List (κ × α)} {k : κ} {v : α} {kv : κ × α}
    (h : kv ∈ jset m k v) : kv = (k, v) ∨ kv ∈ m := by
  induction m with
  | nil => simpa [jset] using h
  | cons kv2 t ih =>
      obtain ⟨k2, v2⟩ := kv2
      by_cases h2 : k2 = k
      · subst h2
        rw [jset, if_pos rfl] at h
        rcases List.mem_cons.mp h with h | h
        · exact Or.inl h
        · exact Or.inr (List.mem_cons_of_mem _ h)
      · rw [jset, if_neg h2] at h
        rcases List.mem_cons.mp h with h | h
        · exact Or.inr (by simp [h])
        · rcases ih h with h3 | h3
          · exact Or.inl h3
          · exact Or.inr (List.mem_cons_of_mem _ h3)

theorem jget_mem {m : List (κ × α)} {k : κ} {v : α}
    (h : jget m k = some v) : (k, v) ∈ m := by
  induction m with
  | nil => simp [jget] at h
  | cons kv t ih =>
      obtain ⟨k2, v2⟩ := kv
      by_cases h2 : k2 = k
      · subst h2
        simp [jget] at h
        simp [h]
      · simp only [jget, if_neg h2] at h
        exact List.mem_cons_of_mem _ (ih h)

theorem jget_eq_none_iff {m : List (κ × α)} {k : κ} :
    jget m k = none ↔ k ∉ m.map Prod.fst := by
  induction m with
  | nil => simp [jget]
  | cons kv t ih =>
      obtain ⟨k2, v2⟩ := kv
      by_cases h2 : k2 = k
      · subst h2
        simp [jget]
      · simp [jget, h2, ih, Ne.symm h2]

theorem keys_jset_of_mem {m : List (κ × α)} {k : κ} (v : α)
    (h : k ∈ m.map Prod.fst) :
    (jset m k v).map Prod.fst = m.map Prod.fst := by
  induction m with
  | nil => simp at h
  | cons kv t ih =>
      obtain ⟨k2, v2⟩ := kv
      by_cases h2 : k2 = k
      · simp [jset, h2]
      · have hk : k ∈ t.map Prod.fst := by
          simpa [Ne.symm h2] using h
        simp [jset, h2, ih hk]

theorem jset_of_not_mem {m : List (κ × α)} {k : κ} (v : α)
    (h : k ∉ m.map Prod.fst) :
    jset m k v = m ++ [(k, v)] := by
  induction m with
  | nil => simp [jset]
  | cons kv t ih =>
      obtain ⟨k2, v2⟩ := kv
      have h2 : k2 ≠ k := by
        intro hc
        exact h (by simp [hc])
      have hk : k ∉ t.map Prod.fst := by
        intro hc
        exact h (by simp [hc])
      simp [jset, h2, ih hk]

theorem jdel_sublist (m : List (κ × α)) (k : κ) : (jdel m k).Sublist m := by
  induction m with
  | nil => simp [jdel]
  | cons kv t ih =>
      obtain ⟨k2, v2⟩ := kv
      by_cases h2 : k2 = k
      · simp only [jdel, if_pos h2]
        exact (List.sublist_cons_self _ _)
      · simp only [jdel, if_neg h2]
        exact ih.cons₂ _

theorem mem_jdel {m : List (κ × α)} {k : κ} {kv : κ × α}
    (h : kv ∈ jdel m k) : kv ∈ m :=
  (jdel_sublist m k).subset h

theorem mem_eq_of_nodup_keys {m : List (κ × α)} (h : (m.map Prod.fst).Nodup)
    {k : κ} {a b : α} (h1 : (k, a) ∈ m) (h2 : (k, b) ∈ m) : a = b := by
  induction m with
  | nil => simp at h1
  | cons kv t ih =>
      obtain ⟨k2, v2⟩ := kv
      simp only [List.map_cons, List.nodup_cons] at h
      rcases List.mem_cons.mp h1 with e1 | e1 <;>
        rcases List.mem_cons.mp h2 with e2 | e2
      · rw [Prod.mk.injEq] at e1 e2
        rw [e1.2, e2.2]
      · exfalso
        apply h.1
        rw [Prod.mk.injEq] at e1
        rw [← e1.1]
        exact List.mem_map_of_mem Prod.fst e2
      · exfalso
        apply h.1
        rw [Prod.mk.injEq] at e2
        rw [← e2.1]
        exact List.mem_map_of_mem Prod.fst e1
      · exact ih h.2 e1 e2

theorem filter_key_eq_nil {m : List (κ × α)} {k : κ}
    (h : k ∉ m.map Prod.fst) :
    m.filter (fun e => e.1 == k) = [] := by
  induction m with
  | nil => simp
  | cons kv t ih =>
      obtain ⟨k2, v2⟩ := kv
      have h2 : k2 ≠ k := by
        intro hc
        exact h (by simp [hc])
      have hk : k ∉ t.map Prod.fst := by
        intro hc
        exact h (by simp [hc])
      simp [List.filter_cons, h2, ih hk]

theorem countKey_jset {m : List (κ × α)} (h : (m.map Prod.fst).Nodup)
    (k : κ) (v : α) :
    ((jset m k v).filter (fun e => e.1 == k)).length = 1 := by
  induction m with
  | nil => simp [jset]
  | cons kv t ih =>
      obtain ⟨k2, v2⟩ := kv
      simp only [List.map_cons, List.nodup_cons] at h
      by_cases h2 : k2 = k
      · subst h2
        simp [jset, List.filter_cons, filter_key_eq_nil h.1]
      · simp [jset, h2, List.filter_cons, ih h.2]

end MapLemmas

/-! ### Table invariants -/

/-- Well-formedness of one entity table: every key is below the id
counter, and keys are pairwise distinct (a JS `Map` holds at most one
entry per key). -/
def Tbl.ok {α : Type} (t : Tbl α) : Prop :=
  (∀ kv ∈ t.map, kv.1 < t.nextId) ∧ (t.map.map Prod.fst).Nodup

instance {α : Type} (t : Tbl α) : Decidable t.ok := by
  unfold Tbl.ok
  infer_instance

/-- Every record sits under the key equal to its own id field. -/
def Tbl.keyed {α : Type} (idOf : α → Nat) (t : Tbl α) : Prop :=
  ∀ kv ∈ t.map, idOf kv.2 = kv.1

instance {α : Type} (idOf : α → Nat) [DecidableEq α] (t : Tbl α) :
    Decidable (t.keyed idOf) := by
  unfold Tbl.keyed
  infer_instance

theorem Tbl.nextId_notMem_keys {α : Type} {t : Tbl α} (h : t.ok) :
    t.nextId ∉ t.map.map Prod.fst := by
  intro hmem
  rcases List.mem_map.mp hmem with ⟨kv, hkv, hfst⟩
  exact absurd (hfst ▸ h.1 kv hkv) (lt_irrefl _)

theorem Tbl.ok_create {α β : Type} (toRec : Nat → β → α) {t : Tbl α}
    (h : t.ok) (b : β) : ((t.create toRec b).2).ok := by
  obtain ⟨hb, hn⟩ := h
  have hnot := Tbl.nextId_notMem_keys ⟨hb, hn⟩
  have happ := jset_of_not_mem (toRec t.nextId b) hnot
  constructor
  · intro kv hkv
    simp only [Tbl.create, happ, List.mem_append, List.mem_singleton] at hkv
    rcases hkv with hkv | hkv
    · exact Nat.lt_succ_of_lt (hb kv hkv)
    · simp [Tbl.create, hkv]
  · simp only [Tbl.create, happ, List.map_append, List.map_cons, List.map_nil]
    rw [List.nodup_append]
    refine ⟨hn, List.nodup_singleton _, ?_⟩
    intro a ha hb2
    simp only [List.mem_singleton] at hb2
    exact hnot (hb2 ▸ ha)

theorem Tbl.ok_set_existing {α : Type} {t : Tbl α} (h : t.ok) {id : Nat}
    {r r2 : α} (hget : jget t.map id = some r) :
    Tbl.ok { map := jset t.map id r2, nextId := t.nextId } := by
  obtain ⟨hb, hn⟩ := h
  have hkmem : id ∈ t.map.map Prod.fst :=
    List.mem_map_of_mem Prod.fst (jget_mem hget)
  constructor
  · intro kv hkv
    rcases mem_jset hkv with hkv | hkv
    · subst hkv
      exact hb (id, r) (jget_mem hget)
    · exact hb kv hkv
  · rw [keys_jset_of_mem r2 hkmem]
    exact hn

theorem Tbl.ok_update {α π : Type} (merge : α → π → α) {t : Tbl α}
    (h : t.ok) (id : Nat) (p : π) : ((t.update merge id p).2).ok := by
  cases hget : jget t.map id with
  | none => simpa [Tbl.update, hget] using h
  | some r =>
      simp only [Tbl.update, hget]
      exact Tbl.ok_set_existing h hget

theorem Tbl.ok_del {α : Type} {t : Tbl α} (h : t.ok) (id : Nat) :
    ((t.del id).2).ok := by
  obtain ⟨hb, hn⟩ := h
  constructor
  · intro kv hkv
    exact hb kv (mem_jdel hkv)
  · exact List.Nodup.sublist ((jdel_sublist t.map id).map Prod.fst) hn

theorem Tbl.nextId_create {α β : Type} (toRec : Nat → β → α) (t : Tbl α) (b : β) :
    ((t.create toRec b).2).nextId = t.nextId + 1 := rfl

theorem Tbl.nextId_update {α π : Type} (merge : α → π → α) (t : Tbl α)
    (id : Nat) (p : π) : ((t.update merge id p).2).nextId = t.nextId := by
  cases hget : jget t.map id <;> simp [Tbl.update, hget]

theorem Tbl.nextId_del {α : Type} (t : Tbl α) (id : Nat) :
    ((t.del id).2).nextId = t.nextId := rfl

theorem Tbl.keyed_create {α β : Type} {idOf : α → Nat} (toRec : Nat → β → α)
    (hid : ∀ i b, idOf (toRec i b) = i) {t : Tbl α} (h : t.keyed idOf) (b : β) :
    ((t.create toRec b).2).keyed idOf := by
  intro kv hkv
  simp only [Tbl.create] at hkv
  rcases mem_jset hkv with hkv | hkv
  · subst hkv
    exact hid _ _
  · exact h kv hkv

theorem Tbl.keyed_update {α π : Type} {idOf : α → Nat} (merge : α → π → α)
    {p : π} (hid : ∀ r, idOf (merge r p) = idOf r) {t : Tbl α}
    (h : t.keyed idOf) (id : Nat) : ((t.update merge id p).2).keyed idOf := by
  cases hget : jget t.map id with
  | none => simpa [Tbl.update, hget] using h
  | some r =>
      intro kv hkv
      simp only [Tbl.update, hget] at hkv
      rcases mem_jset hkv with hkv | hkv
      · subst hkv
        rw [hid r]
        exact h _ (jget_mem hget)
      · exact h kv hkv

theorem Tbl.keyed_del {α : Type} {idOf : α → Nat} {t : Tbl α}
    (h : t.keyed idOf) (id : Nat) : ((t.del id).2).keyed idOf := by
  intro kv hkv
  exact h kv (mem_jdel hkv)

/-- Looking up right after `set` at the same key. -/
theorem Tbl.get_update_self {α π : Type} (merge : α → π → α) {t : Tbl α}
    {id : Nat} {r : α} (hget : jget t.map id = some r) (p : π) :
    ((t.update merge id p).2).get id = some (merge r p) := by
  simp only [Tbl.update, hget, Tbl.get]
  exact jget_jset_self _ _ _

/-! ### Store invariants and reachability -/

/-- Every entity table of the store is well formed. -/
def Store.ok (s : Store) : Prop :=
  s.userStore.ok ∧ s.clientStore.ok ∧ s.serviceStore.ok ∧ s.projectStore.ok ∧
  s.projectDocumentStore.ok ∧ s.newClientContactStore.ok ∧ s.followUpStore.ok ∧
  s.employeeStore.ok

instance (s : Store) : Decidable s.ok := by
  unfold Store.ok
  infer_instance

/-- Every record of every entity table sits under the key equal to its
own id field. -/
def Store.keyed (s : Store) : Prop :=
  s.userStore.keyed User.id ∧ s.clientStore.keyed Client.id ∧
  s.serviceStore.keyed Service.id ∧ s.projectStore.keyed Project.id ∧
  s.projectDocumentStore.keyed ProjectDocument.id ∧
  s.newClientContactStore.keyed NewClientContact.id ∧
  s.followUpStore.keyed FollowUp.id ∧ s.employeeStore.keyed Employee.id

instance (s : Store) : Decidable s.keyed := by
  unfold Store.keyed
  infer_instance

/-- One mutating call of the `MemStorage` interface. -/
inductive Step : Store → Store → Prop where
  | createUser (s : Store) (u : InsertUser) : Step s (s.createUser u).2
  | createClient (s : Store) (c : InsertClient) : Step s (s.createClient c).2
  | updateClient (s : Store) (id : Nat) (p : ClientPatch) :
      Step s (s.updateClient id p).2
  | deleteClient (s : Store) (id : Nat) : Step s (s.deleteClient id).2
  | createService (s : Store) (sv : InsertService) : Step s (s.createService sv).2
  | updateService (s : Store) (id : Nat) (p : ServicePatch) :
      Step s (s.updateService id p).2
  | deleteService (s : Store) (id : Nat) : Step s (s.deleteService id).2
  | createProject (s : Store) (p : InsertProject) : Step s (s.createProject p).2
  | updateProject (s : Store) (id : Nat) (p : ProjectPatch) :
      Step s (s.updateProject id p).2
  | deleteProject (s : Store) (id : Nat) : Step s (s.deleteProject id).2
  | createProjectDocument (s : Store) (d : InsertProjectDocument) :
      Step s (s.createProjectDocument d).2
  | deleteProjectDocument (s : Store) (id : Nat) :
      Step s (s.deleteProjectDocument id).2
  | addServiceToClient (s : Store) (cs : InsertClientService) :
      Step s (s.addServiceToClient cs).2
  | removeServiceFromClient (s : Store) (clientId serviceId : Nat) :
      Step s (s.removeServiceFromClient clientId serviceId).2
  | createNewClientContact (s : Store) (c : InsertNewClientContact) :
      Step s (s.createNewClientContact c).2
  | updateNewClientContact (s : Store) (id : Nat) (p : NewClientContactPatch) :
      Step s (s.updateNewClientContact id p).2
  | deleteNewClientContact (s : Store) (id : Nat) :
      Step s (s.deleteNewClientContact id).2
  | convertContactToClient (s : Store) (contactId clientId : Nat) :
      Step s (s.convertContactToClient contactId clientId).2
  | createFollowUp (s : Store) (f : InsertFollowUp) : Step s (s.createFollowUp f).2
  | updateFollowUp (s : Store) (id : Nat) (p : FollowUpPatch) :
      Step s (s.updateFollowUp id p).2
  | deleteFollowUp (s : Store) (id : Nat) : Step s (s.deleteFollowUp id).2
  | createEmployee (s : Store) (e : InsertEmployee) : Step s (s.createEmployee e).2
  | updateEmployee (s : Store) (id : Nat) (p : EmployeePatch) :
      Step s (s.updateEmployee id p).2
  | deleteEmployee (s : Store) (id : Nat) : Step s (s.deleteEmployee id).2
  | assignClientToEmployee (s : Store) (ec : InsertEmployeeClient) :
      Step s (s.assignClientToEmployee ec).2
  | unassignClientFromEmployee (s : Store) (employeeId clientId : Nat) :
      Step s (s.unassignClientFromEmployee employeeId clientId).2

/-- A store state reachable from the constructor state by interface calls. -/
def Reachable (s : Store) : Prop :=
  Relation.ReflTransGen Step Store.freshStore s

theorem Step.ok_preserved {s t : Store} (hst : Step s t) (h : s.ok) : t.ok := by
  obtain ⟨h1, h2, h3, h4, h5, h6, h7, h8⟩ := h
  cases hst with
  | createUser u => exact ⟨Tbl.ok_create _ h1 u, h2, h3, h4, h5, h6, h7, h8⟩
  | createClient c => exact ⟨h1, Tbl.ok_create _ h2 c, h3, h4, h5, h6, h7, h8⟩
  | updateClient id p => exact ⟨h1, Tbl.ok_update _ h2 id p, h3, h4, h5, h6, h7, h8⟩
  | deleteClient id => exact ⟨h1, Tbl.ok_del h2 id, h3, h4, h5, h6, h7, h8⟩
  | createService sv => exact ⟨h1, h2, Tbl.ok_create _ h3 sv, h4, h5, h6, h7, h8⟩
  | updateService id p => exact ⟨h1, h2, Tbl.ok_update _ h3 id p, h4, h5, h6, h7, h8⟩
  | deleteService id => exact ⟨h1, h2, Tbl.ok_del h3 id, h4, h5, h6, h7, h8⟩
  | createProject p => exact ⟨h1, h2, h3, Tbl.ok_create _ h4 p, h5, h6, h7, h8⟩
  | updateProject id p => exact ⟨h1, h2, h3, Tbl.ok_update _ h4 id p, h5, h6, h7, h8⟩
  | deleteProject id => exact ⟨h1, h2, h3, Tbl.ok_del h4 id, h5, h6, h7, h8⟩
  | createProjectDocument d =>
      exact ⟨h1, h2, h3, h4, Tbl.ok_create _ h5 d, h6, h7, h8⟩
  | deleteProjectDocument id =>
      exact ⟨h1, h2, h3, h4, Tbl.ok_del h5 id, h6, h7, h8⟩
  | addServiceToClient cs => exact ⟨h1, h2, h3, h4, h5, h6, h7, h8⟩
  | removeServiceFromClient clientId serviceId =>
      exact ⟨h1, h2, h3, h4, h5, h6, h7, h8⟩
  | createNewClientContact c =>
      exact ⟨h1, h2, h3, h4, h5, Tbl.ok_create _ h6 c, h7, h8⟩
  | updateNewClientContact id p =>
      exact ⟨h1, h2, h3, h4, h5, Tbl.ok_update _ h6 id p, h7, h8⟩
  | deleteNewClientContact id =>
      exact ⟨h1, h2, h3, h4, h5, Tbl.ok_del h6 id, h7, h8⟩
  | convertContactToClient contactId clientId =>
      cases hget : jget s.newClientContactStore.map contactId with
      | none =>
          simp only [Store.convertContactToClient, hget]
          exact ⟨h1, h2, h3, h4, h5, h6, h7, h8⟩
      | some contact =>
          simp only [Store.convertContactToClient, hget]
          exact ⟨h1, h2, h3, h4, h5, Tbl.ok_set_existing h6 hget, h7, h8⟩
  | createFollowUp f => exact ⟨h1, h2, h3, h4, h5, h6, Tbl.ok_create _ h7 f, h8⟩
  | updateFollowUp id p =>
      exact ⟨h1, h2, h3, h4, h5, h6, Tbl.ok_update _ h7 id p, h8⟩
  | deleteFollowUp id => exact ⟨h1, h2, h3, h4, h5, h6, Tbl.ok_del h7 id, h8⟩
  | createEmployee e => exact ⟨h1, h2, h3, h4, h5, h6, h7, Tbl.ok_create _ h8 e⟩
  | updateEmployee id p =>
      exact ⟨h1, h2, h3, h4, h5, h6, h7, Tbl.ok_update _ h8 id p⟩
  | deleteEmployee id => exact ⟨h1, h2, h3, h4, h5, h6, h7, Tbl.ok_del h8 id⟩
  | assignClientToEmployee ec => exact ⟨h1, h2, h3, h4, h5, h6, h7, h8⟩
  | unassignClientFromEmployee employeeId clientId =>
      exact ⟨h1, h2, h3, h4, h5, h6, h7, h8⟩

/-- Id counters never decrease across a step; in particular a deleted
id is never handed out again. -/
def countersLE (s t : Store) : Prop :=
  s.userStore.nextId ≤ t.userStore.nextId ∧
  s.clientStore.nextId ≤ t.clientStore.nextId ∧
  s.serviceStore.nextId ≤ t.serviceStore.nextId ∧
  s.projectStore.nextId ≤ t.projectStore.nextId ∧
  s.projectDocumentStore.nextId ≤ t.projectDocumentStore.nextId ∧
  s.newClientContactStore.nextId ≤ t.newClientContactStore.nextId ∧
  s.followUpStore.nextId ≤ t.followUpStore.nextId ∧
  s.employeeStore.nextId ≤ t.employeeStore.nextId

theorem Step.counters {s t : Store} (hst : Step s t) : countersLE s t := by
  cases hst with
  | createUser u =>
      exact ⟨Nat.le_succ _, le_refl _, le_refl _, le_refl _, le_refl _, le_refl _,
        le_refl _, le_refl _⟩
  | createClient c =>
      exact ⟨le_refl _, Nat.le_succ _, le_refl _, le_refl _, le_refl _, le_refl _,
        le_refl _, le_refl _⟩
  | updateClient id p =>
      exact ⟨le_refl _, le_of_eq (Tbl.nextId_update mergeClient s.clientStore id p).symm,
        le_refl _, le_refl _, le_refl _, le_refl _, le_refl _, le_refl _⟩
  | deleteClient id =>
      exact ⟨le_refl _, le_refl _, le_refl _, le_refl _, le_refl _, le_refl _,
        le_refl _, le_refl _⟩
  | createService sv =>
      exact ⟨le_refl _, le_refl _, Nat.le_succ _, le_refl _, le_refl _, le_refl _,
        le_refl _, le_refl _⟩
  | updateService id p =>
      exact ⟨le_refl _, le_refl _,
        le_of_eq (Tbl.nextId_update mergeService s.serviceStore id p).symm,
        le_refl _, le_refl _, le_refl _, le_refl _, le_refl _⟩
  | deleteService id =>
      exact ⟨le_refl _, le_refl _, le_refl _, le_refl _, le_refl _, le_refl _,
        le_refl _, le_refl _⟩
  | createProject p =>
      exact ⟨le_refl _, le_refl _, le_refl _, Nat.le_succ _, le_refl _, le_refl _,
        le_refl _, le_refl _⟩
  | updateProject id p =>
      exact ⟨le_refl _, le_refl _, le_refl _,
        le_of_eq (Tbl.nextId_update mergeProject s.projectStore id p).symm,
        le_refl _, le_refl _, le_refl _, le_refl _⟩
  | deleteProject id =>
      exact ⟨le_refl _, le_refl _, le_refl _, le_refl _, le_refl _, le_refl _,
        le_refl _, le_refl _⟩
  | createProjectDocument d =>
      exact ⟨le_refl _, le_refl _, le_refl _, le_refl _, Nat.le_succ _, le_refl _,
        le_refl _, le_refl _⟩
  | deleteProjectDocument id =>
      exact ⟨le_refl _, le_refl _, le_refl _, le_refl _, le_refl _, le_refl _,
        le_refl _, le_refl _⟩
  | addServiceToClient cs =>
      exact ⟨le_refl _, le_refl _, le_refl _, le_refl _, le_refl _, le_refl _,
        le_refl _, le_refl _⟩
  | removeServiceFromClient clientId serviceId =>
      exact ⟨le_refl _, le_refl _, le_refl _, le_refl _, le_refl _, le_refl _,
        le_refl _, le_refl _⟩
  | createNewClientContact c =>
      exact ⟨le_refl _, le_refl _, le_refl _, le_refl _, le_refl _, Nat.le_succ _,
        le_refl _, le_refl _⟩
  | updateNewClientContact id p =>
      exact ⟨le_refl _, le_refl _, le_refl _, le_refl _, le_refl _,
        le_of_eq
          (Tbl.nextId_update mergeNewClientContact s.newClientContactStore id p).symm,
        le_refl _, le_refl _⟩
  | deleteNewClientContact id =>
      exact ⟨le_refl _, le_refl _, le_refl _, le_refl _, le_refl _, le_refl _,
        le_refl _, le_refl _⟩
  | convertContactToClient contactId clientId =>
      cases hget : jget s.newClientContactStore.map contactId with
      | none =>
          simp only [Store.convertContactToClient, hget]
          exact ⟨le_refl _, le_refl _, le_refl _, le_refl _, le_refl _, le_refl _,
            le_refl _, le_refl _⟩
      | some contact =>
          simp only [Store.convertContactToClient, hget]
          exact ⟨le_refl _, le_refl _, le_refl _, le_refl _, le_refl _, le_refl _,
            le_refl _, le_refl _⟩
  | createFollowUp f =>
      exact ⟨le_refl _, le_refl _, le_refl _, le_refl _, le_refl _, le_refl _,
        Nat.le_succ _, le_refl _⟩
  | updateFollowUp id p =>
      exact ⟨le_refl _, le_refl _, le_refl _, le_refl _, le_refl _, le_refl _,
        le_of_eq (Tbl.nextId_update mergeFollowUp s.followUpStore id p).symm,
        le_refl _⟩
  | deleteFollowUp id =>
      exact ⟨le_refl _, le_refl _, le_refl _, le_refl _, le_refl _, le_refl _,
        le_refl _, le_refl _⟩
  | createEmployee e =>
      exact ⟨le_refl _, le_refl _, le_refl _, le_refl _, le_refl _, le_refl _,
        le_refl _, Nat.le_succ _⟩
  | updateEmployee id p =>
      exact ⟨le_refl _, le_refl _, le_refl _, le_refl _, le_refl _, le_refl _,
        le_refl _, le_of_eq (Tbl.nextId_update mergeEmployee s.employeeStore id p).symm⟩
  | deleteEmployee id =>
      exact ⟨le_refl _, le_refl _, le_refl _, le_refl _, le_refl _, le_refl _,
        le_refl _, le_refl _⟩
  | assignClientToEmployee ec =>
      exact ⟨le_refl _, le_refl _, le_refl _, le_refl _, le_refl _, le_refl _,
        le_refl _, le_refl _⟩
  | unassignClientFromEmployee employeeId clientId =>
      exact ⟨le_refl _, le_refl _, le_refl _, le_refl _, le_refl _, le_refl _,
        le_refl _, le_refl _⟩

theorem freshStore_ok : Store.freshStore.ok := by decide

theorem Reachable.ok {s : Store} (h : Reachable s) : s.ok := by
  induction h with
  | refl => exact freshStore_ok
  | tail _ hstep ih => exact hstep.ok_preserved ih

/-! ### Supporting lemmas for the claims -/

theorem Tbl.get_create_self {α β : Type} (toRec : Nat → β → α) (t : Tbl α) (b : β) :
    ((t.create toRec b).2).get t.nextId = some (t.create toRec b).1 := by
  simp only [Tbl.create, Tbl.get]
  exact jget_jset_self _ _ _

theorem Tbl.update_not_found {α π : Type} (merge : α → π → α) {t : Tbl α} {id : Nat}
    (h : t.get id = none) (p : π) : t.update merge id p = (none, t) := by
  unfold Tbl.get at h
  simp [Tbl.update, h]

theorem foldl_add_price (l : List Project) (init : Int) :
    l.foldl (fun sum project => sum + project.price) init =
      init + (l.map Project.price).sum := by
  induction l generalizing init with
  | nil => simp
  | cons p t ih => simp [ih, add_assoc]

theorem overdue_pred_eq (now : Int) :
    (fun f : FollowUp => if f.status != FollowUpStatus.Pending then false
        else decide (f.dueDate < now)) =
    (fun f : FollowUp => decide (f.status = FollowUpStatus.Pending) &&
        decide (f.dueDate < now)) := by
  funext f
  cases hs : f.status <;> simp [hs]

/-! ### Claim theorems -/

/-- C1: for every entity type and every insert input, calling create and
then immediately get with the id of the returned record yields a record
equal to the input with the assigned id added (the returned record is
exactly `{...input, id}`). -/
theorem create_then_get_roundtrip (s : Store) :
    (∀ u : InsertUser,
      ((s.createUser u).2).getUser (s.createUser u).1.id = some (s.createUser u).1 ∧
      (s.createUser u).1 = User.ofInsert (s.createUser u).1.id u) ∧
    (∀ c : InsertClient,
      ((s.createClient c).2).getClient (s.createClient c).1.id =
        some (s.createClient c).1 ∧
      (s.createClient c).1 = Client.ofInsert (s.createClient c).1.id c) ∧
    (∀ sv : InsertService,
      ((s.createService sv).2).getService (s.createService sv).1.id =
        some (s.createService sv).1 ∧
      (s.createService sv).1 = Service.ofInsert (s.createService sv).1.id sv) ∧
    (∀ p : InsertProject,
      ((s.createProject p).2).getProject (s.createProject p).1.id =
        some (s.createProject p).1 ∧
      (s.createProject p).1 = Project.ofInsert (s.createProject p).1.id p) ∧
    (∀ c : InsertNewClientContact,
      ((s.createNewClientContact c).2).getNewClientContact
          (s.createNewClientContact c).1.id = some (s.createNewClientContact c).1 ∧
      (s.createNewClientContact c).1 =
        NewClientContact.ofInsert (s.createNewClientContact c).1.id c) ∧
    (∀ f : InsertFollowUp,
      ((s.createFollowUp f).2).getFollowUp (s.createFollowUp f).1.id =
        some (s.createFollowUp f).1 ∧
      (s.createFollowUp f).1 = FollowUp.ofInsert (s.createFollowUp f).1.id f) ∧
    (∀ e : InsertEmployee,
      ((s.createEmployee e).2).getEmployee (s.createEmployee e).1.id =
        some (s.createEmployee e).1 ∧
      (s.createEmployee e).1 = Employee.ofInsert (s.createEmployee e).1.id e) :=
  ⟨fun u => ⟨Tbl.get_create_self User.ofInsert s.userStore u, rfl⟩,
   fun c => ⟨Tbl.get_create_self Client.ofInsert s.clientStore c, rfl⟩,
   fun sv => ⟨Tbl.get_create_self Service.ofInsert s.serviceStore sv, rfl⟩,
   fun p => ⟨Tbl.get_create_self Project.ofInsert s.projectStore p, rfl⟩,
   fun c => ⟨Tbl.get_create_self NewClientContact.ofInsert s.newClientContactStore c, rfl⟩,
   fun f => ⟨Tbl.get_create_self FollowUp.ofInsert s.followUpStore f, rfl⟩,
   fun e => ⟨Tbl.get_create_self Employee.ofInsert s.employeeStore e, rfl⟩⟩

/-- C2: for every entity type with an update operation, every store
state and every partial payload, updating an id that is absent from
that entity's own map — whatever the other entity maps hold — returns
the not-found sentinel (`none`) and leaves the whole store unchanged;
in particular no record is inserted under that id. -/
theorem update_missing_id (s : Store) (id : Nat) :
    (∀ p : ClientPatch, s.getClient id = none →
      s.updateClient id p = (none, s)) ∧
    (∀ p : ServicePatch, s.getService id = none →
      s.updateService id p = (none, s)) ∧
    (∀ p : ProjectPatch, s.getProject id = none →
      s.updateProject id p = (none, s)) ∧
    (∀ p : NewClientContactPatch, s.getNewClientContact id = none →
      s.updateNewClientContact id p = (none, s)) ∧
    (∀ p : FollowUpPatch, s.getFollowUp id = none →
      s.updateFollowUp id p = (none, s)) ∧
    (∀ p : EmployeePatch, s.getEmployee id = none →
      s.updateEmployee id p = (none, s)) := by
  refine ⟨?_, ?_, ?_, ?_, ?_, ?_⟩ <;> intro p h
  · simp [Store.updateClient, Tbl.update_not_found mergeClient h p]
  · simp [Store.updateService, Tbl.update_not_found mergeService h p]
  · simp [Store.updateProject, Tbl.update_not_found mergeProject h p]
  · simp [Store.updateNewClientContact, Tbl.update_not_found mergeNewClientContact h p]
  · simp [Store.updateFollowUp, Tbl.update_not_found mergeFollowUp h p]
  · simp [Store.updateEmployee, Tbl.update_not_found mergeEmployee h p]

/-- Witness for C2 on the seeded constructor store: id 1 is taken there
by an employee (and a user), yet updating client, service, project,
contact or follow-up 1 still reports not-found with the store
unchanged, each conjunct needing only its own map's absence; employee 2
is likewise missing. -/
theorem update_missing_id_witness :
    Store.freshStore.updateClient 1 {} = (none, Store.freshStore) ∧
    Store.freshStore.updateService 1 {} = (none, Store.freshStore) ∧
    Store.freshStore.updateProject 1 {} = (none, Store.freshStore) ∧
    Store.freshStore.updateNewClientContact 1 {} = (none, Store.freshStore) ∧
    Store.freshStore.updateFollowUp 1 {} = (none, Store.freshStore) ∧
    Store.freshStore.updateEmployee 2 {} = (none, Store.freshStore) :=
  ⟨(update_missing_id Store.freshStore 1).1 {} rfl,
   (update_missing_id Store.freshStore 1).2.1 {} rfl,
   (update_missing_id Store.freshStore 1).2.2.1 {} rfl,
   (update_missing_id Store.freshStore 1).2.2.2.1 {} rfl,
   (update_missing_id Store.freshStore 1).2.2.2.2.1 {} rfl,
   (update_missing_id Store.freshStore 2).2.2.2.2.2 {} (by decide)⟩

/-- C3: the dashboard's `totalRevenue` is the sum of `price` over every
project in the project store, whatever each project's status is. -/
theorem dashboard_totalRevenue (s : Store) (now : Int) :
    (dashboard s now).totalRevenue = (s.getProjects.map Project.price).sum := by
  simp only [dashboard]
  rw [foldl_add_price]
  simp

/-- C4: the dashboard's `overdueFollowUps` counts exactly the follow-ups
whose status is Pending and whose due date is strictly before the call
time `now`; any other status, or a due date at or after `now`, is not
counted. -/
theorem dashboard_overdueFollowUps (s : Store) (now : Int) :
    (dashboard s now).overdueFollowUps =
      (s.getFollowUps.filter (fun f =>
        decide (f.status = FollowUpStatus.Pending) &&
        decide (f.dueDate < now))).length := by
  simp only [dashboard]
  rw [overdue_pred_eq]

/-- C5: converting a missing contact returns `false` and changes
nothing; converting an existing contact returns `true`, sets its
`convertedToClient` flag and `convertedClientId`, and never touches —
in particular never checks or extends — the client store, so it
succeeds even when no client with that id exists. -/
theorem convertContactToClient_spec (s : Store) (contactId clientId : Nat) :
    (s.getNewClientContact contactId = none →
      s.convertContactToClient contactId clientId = (false, s)) ∧
    (∀ c, s.getNewClientContact contactId = some c →
      (s.convertContactToClient contactId clientId).1 = true ∧
      ((s.convertContactToClient contactId clientId).2).getNewClientContact contactId =
        some { c with convertedToClient := true, convertedClientId := some clientId } ∧
      ((s.convertContactToClient contactId clientId).2).clientStore = s.clientStore) := by
  constructor
  · intro h
    have hj : jget s.newClientContactStore.map contactId = none := h
    simp [Store.convertContactToClient, hj]
  · intro c h
    have hj : jget s.newClientContactStore.map contactId = some c := h
    refine ⟨?_, ?_, ?_⟩
    · simp [Store.convertContactToClient, hj]
    · simp [Store.convertContactToClient, hj, Store.getNewClientContact, Tbl.get,
        jget_jset_self]
    · simp [Store.convertContactToClient, hj]

/-- The lead used to witness C5; the store holding it has an empty
client store, so client id 5 does not exist there. -/
def witnessContact : InsertNewClientContact :=
  { contactName := "Lead", phoneEmail := "lead@example.com", contactedDate := 0,
    contactMethod := ContactMethod.Email, responseType := ResponseType.Positive,
    notes := none, convertedToClient := false, convertedClientId := none }

def witnessContactStore : Store :=
  (Store.emptyStore.createNewClientContact witnessContact).2

/-- Witness for C5: both branches at concrete stores; the success branch
runs against a store whose client map is empty, so client id 5 is
unverified and uncreated. -/
theorem convertContactToClient_spec_witness :
    Store.emptyStore.convertContactToClient 1 5 = (false, Store.emptyStore) ∧
    ((witnessContactStore.convertContactToClient 1 5).1 = true ∧
      ((witnessContactStore.convertContactToClient 1 5).2).getNewClientContact 1 =
        some { NewClientContact.ofInsert 1 witnessContact with
          convertedToClient := true, convertedClientId := some 5 } ∧
      ((witnessContactStore.convertContactToClient 1 5).2).clientStore =
        witnessContactStore.clientStore) :=
  ⟨(convertContactToClient_spec Store.emptyStore 1 5).1 rfl,
   (convertContactToClient_spec witnessContactStore 1 5).2
     (NewClientContact.ofInsert 1 witnessContact) rfl⟩

/-- C6: adding the same (clientId, serviceId) association twice leaves
the association map exactly as adding it once does, and the map then
holds exactly one entry under that composite key. -/
theorem addServiceToClient_idempotent (s : Store) (cs : InsertClientService)
    (h : (s.clientServiceStore.map Prod.fst).Nodup) :
    (((s.addServiceToClient cs).2).addServiceToClient cs).2.clientServiceStore =
      ((s.addServiceToClient cs).2).clientServiceStore ∧
    (((s.addServiceToClient cs).2).clientServiceStore.filter
        (fun e => e.1 == Store.csKey cs.clientId cs.serviceId)).length = 1 := by
  constructor
  · simp [Store.addServiceToClient, jset_jset]
  · simp only [Store.addServiceToClient]
    exact countKey_jset h _ cs

/-- Witness for C6 at the empty store and the pair (3, 4). -/
theorem addServiceToClient_idempotent_witness :
    ((((Store.emptyStore.addServiceToClient ⟨3, 4⟩).2).addServiceToClient
        ⟨3, 4⟩).2.clientServiceStore =
      ((Store.emptyStore.addServiceToClient ⟨3, 4⟩).2).clientServiceStore) ∧
    ((((Store.emptyStore.addServiceToClient ⟨3, 4⟩).2).clientServiceStore.filter
        (fun e => e.1 == Store.csKey 3 4)).length = 1) :=
  addServiceToClient_idempotent Store.emptyStore ⟨3, 4⟩ (by decide)

/-- Every create hands out the current counter value as the new id,
strictly above every key already in that entity's map, and bumps the
counter by one. -/
def Store.createsFresh (s : Store) : Prop :=
  (∀ u : InsertUser, (s.createUser u).1.id = s.userStore.nextId ∧
    (∀ kv ∈ s.userStore.map, kv.1 < (s.createUser u).1.id) ∧
    (s.createUser u).2.userStore.nextId = s.userStore.nextId + 1) ∧
  (∀ c : InsertClient, (s.createClient c).1.id = s.clientStore.nextId ∧
    (∀ kv ∈ s.clientStore.map, kv.1 < (s.createClient c).1.id) ∧
    (s.createClient c).2.clientStore.nextId = s.clientStore.nextId + 1) ∧
  (∀ sv : InsertService, (s.createService sv).1.id = s.serviceStore.nextId ∧
    (∀ kv ∈ s.serviceStore.map, kv.1 < (s.createService sv).1.id) ∧
    (s.createService sv).2.serviceStore.nextId = s.serviceStore.nextId + 1) ∧
  (∀ p : InsertProject, (s.createProject p).1.id = s.projectStore.nextId ∧
    (∀ kv ∈ s.projectStore.map, kv.1 < (s.createProject p).1.id) ∧
    (s.createProject p).2.projectStore.nextId = s.projectStore.nextId + 1) ∧
  (∀ d : InsertProjectDocument,
    (s.createProjectDocument d).1.id = s.projectDocumentStore.nextId ∧
    (∀ kv ∈ s.projectDocumentStore.map, kv.1 < (s.createProjectDocument d).1.id) ∧
    (s.createProjectDocument d).2.projectDocumentStore.nextId =
      s.projectDocumentStore.nextId + 1) ∧
  (∀ c : InsertNewClientContact,
    (s.createNewClientContact c).1.id = s.newClientContactStore.nextId ∧
    (∀ kv ∈ s.newClientContactStore.map, kv.1 < (s.createNewClientContact c).1.id) ∧
    (s.createNewClientContact c).2.newClientContactStore.nextId =
      s.newClientContactStore.nextId + 1) ∧
  (∀ f : InsertFollowUp, (s.createFollowUp f).1.id = s.followUpStore.nextId ∧
    (∀ kv ∈ s.followUpStore.map, kv.1 < (s.createFollowUp f).1.id) ∧
    (s.createFollowUp f).2.followUpStore.nextId = s.followUpStore.nextId + 1) ∧
  (∀ e : InsertEmployee, (s.createEmployee e).1.id = s.employeeStore.nextId ∧
    (∀ kv ∈ s.employeeStore.map, kv.1 < (s.createEmployee e).1.id) ∧
    (s.createEmployee e).2.employeeStore.nextId = s.employeeStore.nextId + 1)

theorem Store.createsFresh_of_ok {s : Store} (h : s.ok) : s.createsFresh := by
  obtain ⟨h1, h2, h3, h4, h5, h6, h7, h8⟩ := h
  exact ⟨fun u => ⟨rfl, fun kv hkv => h1.1 kv hkv, rfl⟩,
    fun c => ⟨rfl, fun kv hkv => h2.1 kv hkv, rfl⟩,
    fun sv => ⟨rfl, fun kv hkv => h3.1 kv hkv, rfl⟩,
    fun p => ⟨rfl, fun kv hkv => h4.1 kv hkv, rfl⟩,
    fun d => ⟨rfl, fun kv hkv => h5.1 kv hkv, rfl⟩,
    fun c => ⟨rfl, fun kv hkv => h6.1 kv hkv, rfl⟩,
    fun f => ⟨rfl, fun kv hkv => h7.1 kv hkv, rfl⟩,
    fun e => ⟨rfl, fun kv hkv => h8.1 kv hkv, rfl⟩⟩

/-- C7 (amended): in every reachable store state each entity table is
well formed — its keys (the assigned ids) are pairwise distinct and all
strictly below the id counter — every create returns the counter value
as the new id, strictly greater than every key in that table, and
increments the counter; and no interface call ever decreases a counter,
so a deleted id is never handed out again.  The original claim's
stronger reading, that no two records of one entity type ever share an
id *field*, is refuted by `updateClient_duplicates_id_field`: an update
payload carrying an `id` overwrites the stored record's id field while
its key stays put. -/
theorem reachable_ids_fresh_and_monotone (s : Store) (h : Reachable s) :
    Store.ok s ∧ Store.createsFresh s ∧ (∀ t, Step s t → countersLE s t) :=
  ⟨h.ok, Store.createsFresh_of_ok h.ok, fun _ hstep => hstep.counters⟩

/-- Witness for C7 at the constructor state. -/
theorem reachable_ids_fresh_and_monotone_witness : Store.ok Store.freshStore :=
  (reachable_ids_fresh_and_monotone Store.freshStore Relation.ReflTransGen.refl).1

def cexInsertA : InsertClient :=
  { name := "Alice Co", phone := "111", address := none,
    clientType := ClientType.Company }

def cexInsertB : InsertClient :=
  { name := "Bob Co", phone := "222", address := none,
    clientType := ClientType.Company }

/-- An update payload that carries an `id` — accepted by
`insertClientSchema.partial()`, because the insert schema never omits
the serial column. -/
def cexPatch : ClientPatch := { id := some 1 }

/-- Create two clients, then `updateClient(2, {id: 1})`. -/
def cexStore : Store :=
  (((Store.freshStore.createClient cexInsertA).2.createClient
      cexInsertB).2.updateClient 2 cexPatch).2

/-- C7 counterexample: `cexStore` is reachable by three interface calls,
yet the records stored under keys 1 and 2 both carry id field 1 — two
distinct records of one entity type share an id. -/
theorem updateClient_duplicates_id_field :
    Reachable cexStore ∧
    cexStore.getClient 1 =
      some { id := 1, name := "Alice Co", phone := "111", address := none,
             clientType := ClientType.Company } ∧
    cexStore.getClient 2 =
      some { id := 1, name := "Bob Co", phone := "222", address := none,
             clientType := ClientType.Company } := by
  refine ⟨?_, by decide, by decide⟩
  exact Relation.ReflTransGen.tail
    (Relation.ReflTransGen.tail
      (Relation.ReflTransGen.tail Relation.ReflTransGen.refl
        (Step.createClient Store.freshStore cexInsertA))
      (Step.createClient _ cexInsertB))
    (Step.updateClient _ 2 cexPatch)

/-! The example scenario of the spec.  Its first two creations are
exactly what the constructor's `seedInitialData` performs on the
pre-seed state, so the freshly constructed store already contains
employee 1 and the admin user; the scenario then continues on the
fresh store. -/

def acmeCo : InsertClient :=
  { name := "Acme Co", phone := "555-0100", address := none,
    clientType := ClientType.Company }

def acmeProject : InsertProject :=
  { clientId := 1, name := "Acme Project", dateRequested := 1700000000,
    dateOfExecution := none, description := none, invoiceFile := none,
    cost := 200, price := 500, duration := none, status := ProjectStatus.Pending }

/-- The store after creating the client and its 500-priced project on
the fresh store. -/
def scenarioStore : Store :=
  ((Store.freshStore.createClient acmeCo).2.createProject acmeProject).2

def inProgressPatch : ProjectPatch := { status := some ProjectStatus.InProgress }

/-- The scenario store after `updateProject(1, {status: "In Progress"})`. -/
def scenarioStoreInProgress : Store :=
  (scenarioStore.updateProject 1 inProgressPatch).2

/-- C8: on the pre-seed constructor state, creating Employee "John Doe"
(Manager) yields id 1; the fresh (seeded) store holds user "admin"
linked to employee 1; creating Client "Acme Co" (Company) on the fresh
store yields id 1; after creating a project for client 1 priced 500 the
dashboard reports totalRevenue 500 and activeProjects 0, and
activeProjects becomes 1 once that project's status is set to
"In Progress". -/
theorem example_scenario :
    (Store.emptyStore.createEmployee Store.seedEmployee).1 =
      { id := 1, name := "John Doe", email := "john@example.com",
        role := EmployeeRole.Manager, activeStatus := true } ∧
    Store.freshStore.getUserByUsername "admin" =
      some { id := 1, username := "admin", password := "password",
             employeeId := some 1 } ∧
    (Store.freshStore.createClient acmeCo).1.id = 1 ∧
    (dashboard scenarioStore 1700000001).totalRevenue = 500 ∧
    (dashboard scenarioStore 1700000001).activeProjects = 0 ∧
    (dashboard scenarioStoreInProgress 1700000001).activeProjects = 1 := by
  refine ⟨by decide, by decide, by decide, ?_, ?_, ?_⟩ <;> decide

/-- C9: an authenticated `DELETE /api/documents/:id` naming a document
whose `projectId` is not 0 answers 404 ("Document not found") and
leaves the store untouched, because the handler searches only the
documents returned by `getProjectDocuments(0)`. -/
theorem deleteDocumentRoute_404 (s : Store) (k : Nat) (d : ProjectDocument)
    (hkeyed : s.projectDocumentStore.keyed ProjectDocument.id)
    (hnodup : (s.projectDocumentStore.map.map Prod.fst).Nodup)
    (hmem : (k, d) ∈ s.projectDocumentStore.map)
    (hpid : d.projectId ≠ 0) :
    deleteDocumentRoute s d.id = (404, s) := by
  have hfind : (s.getProjectDocuments 0).find? (fun doc => doc.id == d.id) = none := by
    rw [List.find?_eq_none]
    intro doc hdoc hbeq
    rw [beq_iff_eq] at hbeq
    simp only [Store.getProjectDocuments, Tbl.values, List.mem_filter] at hdoc
    have hpid0 : doc.projectId = 0 := by simpa using hdoc.2
    rcases List.mem_map.mp hdoc.1 with ⟨kv, hkv, hsnd⟩
    have hdid : d.id = k := hkeyed (k, d) hmem
    have hdocid : doc.id = kv.1 := by
      rw [← hsnd]
      exact hkeyed kv hkv
    have hk1 : kv.1 = k := by rw [← hdocid, hbeq, hdid]
    have hde : doc = d := by
      apply mem_eq_of_nodup_keys hnodup _ hmem
      have : kv = (k, doc) := by
        rw [← hk1, ← hsnd]
      rw [← this]
      exact hkv
    rw [hde] at hpid0
    exact hpid hpid0
  simp [deleteDocumentRoute, hfind]

def witnessDoc : InsertProjectDocument :=
  { projectId := 2, filename := "invoice.pdf", filepath := "uploads/invoice.pdf",
    uploadDate := 0 }

/-- A store holding one document, with projectId 2. -/
def witnessDocStore : Store :=
  (Store.emptyStore.createProjectDocument witnessDoc).2

/-- Witness for C9: deleting the (projectId 2) document by its real id
answers 404 and leaves the store as it was. -/
theorem deleteDocumentRoute_404_witness :
    deleteDocumentRoute witnessDocStore (ProjectDocument.ofInsert 1 witnessDoc).id =
      (404, witnessDocStore) :=
  deleteDocumentRoute_404 witnessDocStore 1 (ProjectDocument.ofInsert 1 witnessDoc)
    (by decide) (by decide) (by decide) (by decide)

/-- C10: if every per-entity map stores each record under the key equal
to its own id field, then every create, update-with-id-free-payload,
and delete preserves that invariant (get operations do not mutate the
store at all in this embedding); and when an update payload does carry
an id, the stored record's id field becomes that payload id while the
record stays under its original key. -/
theorem keyed_invariant (s : Store) (hs : s.keyed) :
    (∀ u : InsertUser, ((s.createUser u).2).keyed) ∧
    (∀ c : InsertClient, ((s.createClient c).2).keyed) ∧
    (∀ sv : InsertService, ((s.createService sv).2).keyed) ∧
    (∀ p : InsertProject, ((s.createProject p).2).keyed) ∧
    (∀ d : InsertProjectDocument, ((s.createProjectDocument d).2).keyed) ∧
    (∀ c : InsertNewClientContact, ((s.createNewClientContact c).2).keyed) ∧
    (∀ f : InsertFollowUp, ((s.createFollowUp f).2).keyed) ∧
    (∀ e : InsertEmployee, ((s.createEmployee e).2).keyed) ∧
    (∀ id (p : ClientPatch), p.id = none → ((s.updateClient id p).2).keyed) ∧
    (∀ id (p : ServicePatch), p.id = none → ((s.updateService id p).2).keyed) ∧
    (∀ id (p : ProjectPatch), p.id = none → ((s.updateProject id p).2).keyed) ∧
    (∀ id (p : NewClientContactPatch), p.id = none →
      ((s.updateNewClientContact id p).2).keyed) ∧
    (∀ id (p : FollowUpPatch), p.id = none → ((s.updateFollowUp id p).2).keyed) ∧
    (∀ id (p : EmployeePatch), p.id = none → ((s.updateEmployee id p).2).keyed) ∧
    (∀ id, ((s.deleteClient id).2).keyed) ∧
    (∀ id, ((s.deleteService id).2).keyed) ∧
    (∀ id, ((s.deleteProject id).2).keyed) ∧
    (∀ id, ((s.deleteProjectDocument id).2).keyed) ∧
    (∀ id, ((s.deleteNewClientContact id).2).keyed) ∧
    (∀ id, ((s.deleteFollowUp id).2).keyed) ∧
    (∀ id, ((s.deleteEmployee id).2).keyed) ∧
    (∀ k c j (p : ClientPatch), s.getClient k = some c → p.id = some j →
      ((s.updateClient k p).2).getClient k = some (mergeClient c p) ∧
      (mergeClient c p).id = j) := by
  obtain ⟨g1, g2, g3, g4, g5, g6, g7, g8⟩ := hs
  refine ⟨?_, ?_, ?_, ?_, ?_, ?_, ?_, ?_, ?_, ?_, ?_, ?_, ?_, ?_, ?_, ?_, ?_, ?_,
    ?_, ?_, ?_, ?_⟩
  · exact fun u =>
      ⟨Tbl.keyed_create User.ofInsert (fun i b => rfl) g1 u, g2, g3, g4, g5, g6, g7, g8⟩
  · exact fun c =>
      ⟨g1, Tbl.keyed_create Client.ofInsert (fun i b => rfl) g2 c, g3, g4, g5, g6, g7, g8⟩
  · exact fun sv =>
      ⟨g1, g2, Tbl.keyed_create Service.ofInsert (fun i b => rfl) g3 sv, g4, g5, g6, g7, g8⟩
  · exact fun p =>
      ⟨g1, g2, g3, Tbl.keyed_create Project.ofInsert (fun i b => rfl) g4 p, g5, g6, g7, g8⟩
  · exact fun d =>
      ⟨g1, g2, g3, g4, Tbl.keyed_create ProjectDocument.ofInsert (fun i b => rfl) g5 d,
        g6, g7, g8⟩
  · exact fun c =>
      ⟨g1, g2, g3, g4, g5, Tbl.keyed_create NewClientContact.ofInsert (fun i b => rfl) g6 c,
        g7, g8⟩
  · exact fun f =>
      ⟨g1, g2, g3, g4, g5, g6, Tbl.keyed_create FollowUp.ofInsert (fun i b => rfl) g7 f, g8⟩
  · exact fun e =>
      ⟨g1, g2, g3, g4, g5, g6, g7, Tbl.keyed_create Employee.ofInsert (fun i b => rfl) g8 e⟩
  · exact fun id p hp =>
      ⟨g1, Tbl.keyed_update mergeClient (fun r => by simp [mergeClient, hp]) g2 id,
        g3, g4, g5, g6, g7, g8⟩
  · exact fun id p hp =>
      ⟨g1, g2, Tbl.keyed_update mergeService (fun r => by simp [mergeService, hp]) g3 id,
        g4, g5, g6, g7, g8⟩
  · exact fun id p hp =>
      ⟨g1, g2, g3, Tbl.keyed_update mergeProject (fun r => by simp [mergeProject, hp]) g4 id,
        g5, g6, g7, g8⟩
  · exact fun id p hp =>
      ⟨g1, g2, g3, g4, g5,
        Tbl.keyed_update mergeNewClientContact
          (fun r => by simp [mergeNewClientContact, hp]) g6 id, g7, g8⟩
  · exact fun id p hp =>
      ⟨g1, g2, g3, g4, g5, g6,
        Tbl.keyed_update mergeFollowUp (fun r => by simp [mergeFollowUp, hp]) g7 id, g8⟩
  · exact fun id p hp =>
      ⟨g1, g2, g3, g4, g5, g6, g7,
        Tbl.keyed_update mergeEmployee (fun r => by simp [mergeEmployee, hp]) g8 id⟩
  · exact fun id => ⟨g1, Tbl.keyed_del g2 id, g3, g4, g5, g6, g7, g8⟩
  · exact fun id => ⟨g1, g2, Tbl.keyed_del g3 id, g4, g5, g6, g7, g8⟩
  · exact fun id => ⟨g1, g2, g3, Tbl.keyed_del g4 id, g5, g6, g7, g8⟩
  · exact fun id => ⟨g1, g2, g3, g4, Tbl.keyed_del g5 id, g6, g7, g8⟩
  · exact fun id => ⟨g1, g2, g3, g4, g5, Tbl.keyed_del g6 id, g7, g8⟩
  · exact fun id => ⟨g1, g2, g3, g4, g5, g6, Tbl.keyed_del g7 id, g8⟩
  · exact fun id => ⟨g1, g2, g3, g4, g5, g6, g7, Tbl.keyed_del g8 id⟩
  · exact fun k c j p hget hpj =>
      ⟨Tbl.get_update_self mergeClient (show jget s.clientStore.map k = some c from hget) p,
        by simp [mergeClient, hpj]⟩

def witnessClient : InsertClient :=
  { name := "W Co", phone := "000", address := none, clientType := ClientType.Private }

/-- Witness for C10: the fresh store is keyed and stays keyed after a
client creation. -/
theorem keyed_invariant_witness :
    Store.keyed ((Store.freshStore.createClient witnessClient).2) :=
  (keyed_invariant Store.freshStore (by decide)).2.1 witnessClient

end BSM
